import Mathlib

/-!
# Verification of `central_scraper.py`

Shallow embedding of the document-scraping pipeline in `src/central_scraper.py`:
the PDF text extractor, the three HTML scrapers (remote SEC, local HTML,
generic website), the JSON record builder `create_json_entry`, and the
interactive driver `main`.

Strings are modelled as `List Char` (`Str`).  Python string primitives used by
the source (`str.split`, `str.strip`, `str.join`, `str.replace`,
`os.path.basename`, `os.path.splitext`) are embedded directly; BeautifulSoup's
`get_text` / `find_all` / `decompose` are modelled over an HTML node tree
following the library's documented semantics, and PyMuPDF page extraction is
abstracted as the list of page texts it yields (a failing open/extract is the
`none` case).
-/

/-- Python-style strings: lists of characters. -/
abbrev Str := List Char

/-- Convert a Lean string literal to the `List Char` model. -/
def str (s : String) : Str := s.data

/-- Python's whitespace predicate for `str.strip()` (ASCII range; the source
only ever meets ASCII whitespace). -/
def pyIsSpace (c : Char) : Bool :=
  c = ' ' || c = '\t' || c = '\n' || c = '\x0d' || c = '\x0b' || c = '\x0c'

/-- Python `str.strip()`: drop leading and trailing whitespace. -/
def pyStrip (s : Str) : Str :=
  ((s.dropWhile pyIsSpace).reverse.dropWhile pyIsSpace).reverse

/-- The two-character blank-line boundary `"\n\n"`. -/
def nl2 : Str := ['\n', '\n']

/-- Python `s.split("\n\n")` (the only separator the source splits on):
split on each non-overlapping occurrence of the two-newline boundary,
scanning left to right. -/
def pySplitNN : Str → List Str
  | [] => [[]]
  | [c] => [[c]]
  | c1 :: c2 :: rest =>
    if c1 = '\n' ∧ c2 = '\n' then
      [] :: pySplitNN rest
    else
      match pySplitNN (c2 :: rest) with
      | [] => [[c1]]
      | h :: t => (c1 :: h) :: t

/-- Python `sep.join(xs)`. -/
def joinSep (sep : Str) : List Str → Str
  | [] => []
  | [p] => p
  | p :: q :: ps => p ++ sep ++ joinSep sep (q :: ps)

example : pySplitNN (str "A\n\nB\n\nC") = [str "A", str "B", str "C"] := by decide
example : pySplitNN (str "\n\n\n") = [[], ['\n']] := by decide

/-- Does a string contain the two-newline boundary `"\n\n"`? -/
def containsNN : Str → Bool
  | [] => false
  | [_] => false
  | c1 :: c2 :: rest => (c1 = '\n' && c2 = '\n') || containsNN (c2 :: rest)

/-! ## `create_json_entry` (lines 78–91)

`paragraphs = [p.strip() for p in raw_text.split("\n\n") if p.strip()]` and the
returned dict.  The Python dict is modelled as an insertion-ordered association
list. -/

/-- Line 81: the paragraph segmentation performed inside `create_json_entry`. -/
def segmentText (raw_text : Str) : List Str :=
  ((pySplitNN raw_text).map pyStrip).filter (fun p => p ≠ [])

/-- The dict returned by `create_json_entry`. -/
structure JsonEntry where
  document_name : String
  document_type : String
  document_link : String
  issuer : String
  resource_name : String
  section_content : Str
  content : List (String × Str)
deriving DecidableEq, Repr

/-- Lines 78–91: build the structured JSON entry.  `content` has key
`f"Paragraph_{i+1}"` for the `i`-th (0-based) paragraph. -/
def create_json_entry (document_name document_type document_link issuer
    resource_name : String) (raw_text : Str) : JsonEntry :=
  let paragraphs := segmentText raw_text
  { document_name := document_name
    document_type := document_type
    document_link := document_link
    issuer := issuer
    resource_name := resource_name
    section_content := raw_text
    content := paragraphs.enum.map
      (fun ip => ("Paragraph_" ++ Nat.repr (ip.1 + 1), ip.2)) }

/-! ## `extract_text_from_pdf` (lines 8–20)

The fitz document is abstracted as the list of texts its pages yield, in page
order; a raising `fitz.open`/page extraction is the `none` case (the function
catches every exception and returns `None`). -/

/-- Lines 8–20: `text = ""`, then `text += page.get_text("text") + "\n"` per
page, then `return text.strip()`; any exception gives `None`. -/
def extract_text_from_pdf : Option (List Str) → Option Str
  | none => none
  | some pages => some (pyStrip (pages.foldl (fun acc t => acc ++ t ++ ['\n']) []))

example : segmentText (str "A\n\nB\n\nC") = [str "A", str "B", str "C"] := by decide
example : segmentText (str "  \n\n  ") = [] := by decide
example : (create_json_entry "n" "t" "l" "i" "r" (str "Para one.\n\nPara two.")).content
    = [("Paragraph_1", str "Para one."), ("Paragraph_2", str "Para two.")] := by decide
example : extract_text_from_pdf (some [str "Page1 text", str "Page2 text"])
    = some (str "Page1 text\nPage2 text") := by decide

example : pyStrip (str "  hi \n") = str "hi" := by decide

/-! ## HTML documents and the BeautifulSoup operations the source uses

A parsed HTML document is a forest of nodes; an element node carries its tag
name, its attributes and its children.  The BeautifulSoup calls appearing in
the source are modelled by their documented semantics:
`soup.find_all("p")` (all `<p>` elements, document order, nested ones
included), `p.get_text(separator, strip=True)` (the element's text segments,
each stripped, empties dropped, joined with the separator — `""` when no
separator is given), `tag.decompose()` on every script/style element, and
`table.attrs.pop(attr, None)`. -/

mutual
/-- An HTML node: a text segment or an element with tag, attributes, children. -/
inductive Node where
  | text : Str → Node
  | elem : String → List (String × String) → NodeList → Node
/-- A list of sibling HTML nodes. -/
inductive NodeList where
  | nil : NodeList
  | cons : Node → NodeList → NodeList
end

/-- Build a `NodeList` from a `List Node`. -/
def nlist : List Node → NodeList
  | [] => .nil
  | n :: ns => .cons n (nlist ns)

mutual
/-- The text segments below a node, in document order (bs4 `_all_strings`). -/
def nodeStrings : Node → List Str
  | .text s => [s]
  | .elem _ _ cs => listStrings cs
/-- The text segments below a node list, in document order. -/
def listStrings : NodeList → List Str
  | .nil => []
  | .cons n ns => nodeStrings n ++ listStrings ns
end

/-- bs4 `get_text(separator=sep, strip=True)`: strip every text segment, drop
the ones that become empty, join the rest with `sep`.  The source's
`get_text(strip=True)` is `bsGetText []`, its `get_text(separator=' ',
strip=True)` is `bsGetText [' ']`. -/
def bsGetText (sep : Str) (n : Node) : Str :=
  joinSep sep (((nodeStrings n).map pyStrip).filter (fun t => t ≠ []))

mutual
/-- The bs4 call `soup.find_all("p")` restricted to one node: the node itself when it is a
`<p>` element, then the `<p>` elements among its descendants, document order. -/
def findPN : Node → List Node
  | .text _ => []
  | .elem t a cs => (if t = "p" then [Node.elem t a cs] else []) ++ findPL cs
/-- The bs4 call `soup.find_all("p")` over a node list, document order. -/
def findPL : NodeList → List Node
  | .nil => []
  | .cons n ns => findPN n ++ findPL ns
end

/-- Lines 30–33 and 54–57 and 70–73: the paragraph extraction shared by all
three HTML scrapers, `"\n\n".join([p.get_text(separator=' ', strip=True) for p
in soup.find_all("p") if p.get_text(strip=True)])`. -/
def extractParagraphs (soup : NodeList) : Str :=
  joinSep nl2
    (((findPL soup).filter (fun p => bsGetText [] p ≠ [])).map (bsGetText [' ']))

/-- Does the tag match the `soup(['script', 'style'])` selector? -/
def isScriptOrStyle (t : String) : Bool := t = "script" || t = "style"

mutual
/-- The call `tag.decompose()` for every element found by `soup(['script', 'style'])`:
remove script and style elements, wherever they sit, from a node's subtree. -/
def removeScriptStyleN : Node → Node
  | .text s => .text s
  | .elem t a cs => .elem t a (removeScriptStyleL cs)
/-- Remove script and style elements from a node list and all subtrees. -/
def removeScriptStyleL : NodeList → NodeList
  | .nil => .nil
  | .cons (.text s) ns => .cons (.text s) (removeScriptStyleL ns)
  | .cons (.elem t a cs) ns =>
    if isScriptOrStyle t then removeScriptStyleL ns
    else .cons (.elem t a (removeScriptStyleL cs)) (removeScriptStyleL ns)
end

/-- The presentation attributes popped from every table (line 51). -/
def tableAttrsPopped : List String := ["border", "cellspacing", "cellpadding", "width"]

mutual
/-- Lines 50–52: `table.attrs.pop(attr, None)` for the four presentation
attributes, applied to every table element of a node's subtree. -/
def stripTableAttrsN : Node → Node
  | .text s => .text s
  | .elem t a cs =>
    .elem t (if t = "table" then a.filter (fun kv => !(tableAttrsPopped.contains kv.1)) else a)
      (stripTableAttrsL cs)
/-- Table-attribute stripping over a node list. -/
def stripTableAttrsL : NodeList → NodeList
  | .nil => .nil
  | .cons n ns => .cons (stripTableAttrsN n) (stripTableAttrsL ns)
end

/-! ## The three HTML scrapers (lines 22–75)

The fetched (or read) and parsed document is the `.ok` case; a
`requests.exceptions.RequestException` raised by `requests.get` /
`raise_for_status` (for the two remote paths) or any exception raised while
reading the file (local path) is the `.error` case, carrying the exception's
message.  Each function catches exactly that case and returns
`f"Error: {e}"`. -/

/-- Lines 22–35: `scrape_sec_document`. -/
def scrape_sec_document : Except Str NodeList → Str
  | .error e => str "Error: " ++ e
  | .ok soup => extractParagraphs soup

/-- Lines 61–75: `scrape_website_text` (the extra `User-Agent` request header
has no observable effect on the parsed document model). -/
def scrape_website_text : Except Str NodeList → Str
  | .error e => str "Error: " ++ e
  | .ok soup => extractParagraphs soup

/-- Lines 37–59: `scrape_local_html`: remove script/style elements, strip the
table presentation attributes, then extract paragraphs. -/
def scrape_local_html : Except Str NodeList → Str
  | .error e => str "Error: " ++ e
  | .ok soup => extractParagraphs (stripTableAttrsL (removeScriptStyleL soup))

example :
    scrape_local_html (.ok (nlist
      [ .elem "p" [] (nlist [.text (str "Hello")]),
        .elem "script" [] (nlist [.text (str "evil()")]),
        .elem "p" [] (nlist [.text (str "World")])]))
      = str "Hello\n\nWorld" := by decide

example :
    scrape_sec_document (.ok (nlist
      [ .elem "p" [] (nlist [.text (str " a "), .elem "b" [] (nlist [.text (str "c")])]),
        .elem "p" [] (nlist [.text (str "  ")]) ]))
      = str "a c" := by decide

/-! ## The driver `main` (lines 94–163)

`main` interacts with the user and the outside world.  Those interactions are
collected in a `World`: the outcome of the one fetch/read each branch performs,
and the answers the user types at the prompts.  `main`'s observable behaviour
is the list of messages it prints and the at-most-one file write it performs;
the write is recorded with the arguments of the `open`/`json.dump` calls
(filename, open mode `"w"`, `encoding="utf-8"`, `indent=4`, payload). -/

/-- Python `str.replace(' ', '_')` (line 148). -/
def pyReplaceSpaceUnderscore (s : String) : String :=
  ⟨s.data.map (fun c => if c = ' ' then '_' else c)⟩

/-- POSIX `os.path.basename`: everything after the last `'/'`. -/
def pyBasename (s : Str) : Str :=
  (s.reverse.takeWhile (fun c => c ≠ '/')).reverse

/-- Python `os.path.splitext(b)[0]` for a path without directory separators: cut at
the last dot, unless every character before that dot is itself a dot. -/
def pySplitextRoot (b : Str) : Str :=
  let afterDot := b.reverse.takeWhile (fun c => c ≠ '.')
  if afterDot.length = b.length then b
  else
    let root := b.take (b.length - afterDot.length - 1)
    if root.any (fun c => c ≠ '.') then root else b

/-- Python `os.path.splitext(os.path.basename(path))[0]` (lines 115 and 128). -/
def docNameOfPath (p : String) : String := ⟨pySplitextRoot (pyBasename p.data)⟩

example : docNameOfPath "/tmp/dir/report.v2.html" = "report.v2" := rfl
example : docNameOfPath "/tmp/.bashrc" = ".bashrc" := rfl

/-- The envelope serialized at lines 151–154. -/
structure CompanyEnvelope where
  company : String
  documents : List JsonEntry
deriving DecidableEq

/-- The one file write of lines 157–158, with the arguments of the
`open(..., "w", encoding="utf-8")` and `json.dump(..., indent=4)` calls. -/
structure FileWrite where
  filename : String
  mode : String
  encoding : String
  indent : Nat
  payload : CompanyEnvelope
deriving DecidableEq

/-- What `main` observably does: the messages printed, and the file write it
performs, if any. -/
structure MainResult where
  printed : List String
  written : Option FileWrite
deriving DecidableEq

/-- The menu printed at lines 95–99. -/
def mainMenu : List String :=
  [ "📌 Choose the type of document to scrape:",
    "1. SEC Financial Document (Online)",
    "2. SEC Financial Document (Local HTML)",
    "3. PDF Document",
    "4. Website HTML" ]

/-- Line 125. -/
def pdfFailMsg : String := "❌ Failed to extract text from the PDF. Exiting."

/-- Line 144. -/
def invalidChoiceMsg : String := "❌ Invalid choice. Please restart the script."

/-- Everything outside `main` that a run depends on: the outcome of the
branch's fetch/read, and the user's prompt answers. -/
structure World where
  secFetch : Except Str NodeList
  localRead : Except Str NodeList
  pdf : Option (List Str)
  webFetch : Except Str NodeList
  inUrl : String
  inPath : String
  inPdfPath : String
  inName : String
  inIssuer : String
  inType : String
  inResource : String

/-- Lines 148–160: build the filename, the envelope, write, print success. -/
def finishRun (document_name document_type document_link issuer
    resource_name : String) (raw_text : Str) : MainResult :=
  let json_filename := pyReplaceSpaceUnderscore document_name ++ ".json"
  let env : CompanyEnvelope :=
    ⟨issuer, [create_json_entry document_name document_type document_link issuer
      resource_name raw_text]⟩
  ⟨mainMenu ++ ["✅ Scraped data saved to " ++ json_filename],
    some ⟨json_filename, "w", "utf-8", 4, env⟩⟩

/-- Lines 94–160: `main`, as a function of the chosen mode and the `World`.
Branch 3 aborts when `extract_text_from_pdf` yields `None` or an empty string
(`if not raw_text`). -/
def mainRun (choice : String) (w : World) : MainResult :=
  if choice = "1" then
    finishRun w.inName "Raw Financials" w.inUrl w.inIssuer "SEC"
      (scrape_sec_document w.secFetch)
  else if choice = "2" then
    finishRun (docNameOfPath w.inPath) "Raw Financials" "N/A" w.inIssuer "SEC"
      (scrape_local_html w.localRead)
  else if choice = "3" then
    match extract_text_from_pdf w.pdf with
    | none => ⟨mainMenu ++ [pdfFailMsg], none⟩
    | some raw_text =>
      if raw_text = [] then ⟨mainMenu ++ [pdfFailMsg], none⟩
      else finishRun (docNameOfPath w.inPdfPath) w.inType "N/A" w.inIssuer
        w.inResource raw_text
  else if choice = "4" then
    finishRun w.inName "Market" w.inUrl w.inIssuer w.inResource
      (scrape_website_text w.webFetch)
  else ⟨mainMenu ++ [invalidChoiceMsg], none⟩

/-! ## Properties of `pyStrip` -/

theorem dropWhile_head_false (p : Char → Bool) (l : Str) (c : Char) (t : Str)
    (h : l.dropWhile p = c :: t) : p c = false := by
  have hm := List.head?_dropWhile_not p l
  rw [h] at hm
  simpa using hm

/-- The first character of a stripped string is not whitespace. -/
theorem pyStrip_head_false (s : Str) (c : Char) (t : Str)
    (h : pyStrip s = c :: t) : pyIsSpace c = false := by
  unfold pyStrip at h
  set u := s.dropWhile pyIsSpace with hu
  have hsuff : u.reverse.dropWhile pyIsSpace <:+ u.reverse :=
    List.dropWhile_suffix pyIsSpace
  have hpre : (u.reverse.dropWhile pyIsSpace).reverse <+: u := by
    rcases hsuff with ⟨r, hr⟩
    refine ⟨r.reverse, ?_⟩
    have hrev := congrArg List.reverse hr
    simpa [List.reverse_append] using hrev
  rw [h] at hpre
  rcases hpre with ⟨r, hr⟩
  have hhead : u = c :: (t ++ r) := by simpa using hr.symm
  exact dropWhile_head_false pyIsSpace s c (t ++ r) (by rw [← hu, hhead])

/-- The last character of a stripped string is not whitespace. -/
theorem pyStrip_getLast_false (s : Str) (c : Char)
    (h : (pyStrip s).getLast? = some c) : pyIsSpace c = false := by
  unfold pyStrip at h
  rw [List.getLast?_reverse] at h
  cases hv : (s.dropWhile pyIsSpace).reverse.dropWhile pyIsSpace with
  | nil => rw [hv] at h; simp at h
  | cons d v =>
    rw [hv] at h
    simp only [List.head?_cons, Option.some.injEq] at h
    rw [← h]
    exact dropWhile_head_false pyIsSpace (s.dropWhile pyIsSpace).reverse d v hv

/-- Stripping an already left-and-right clean string does nothing. -/
theorem pyStrip_of_clean (s : Str)
    (hhead : ∀ c t, s = c :: t → pyIsSpace c = false)
    (hlast : ∀ c, s.getLast? = some c → pyIsSpace c = false) :
    pyStrip s = s := by
  have h1 : s.dropWhile pyIsSpace = s := by
    cases s with
    | nil => rfl
    | cons c t => exact List.dropWhile_cons_of_neg (by simp [hhead c t rfl])
  have h2 : s.reverse.dropWhile pyIsSpace = s.reverse := by
    cases hr : s.reverse with
    | nil => simp
    | cons c t =>
      have hc : s.getLast? = some c := by
        rw [List.getLast?_eq_head?_reverse, hr]; rfl
      rw [List.dropWhile_cons_of_neg (by simp [hlast c hc])]
  unfold pyStrip
  rw [h1, h2, List.reverse_reverse]

/-- Stripping is idempotent. -/
theorem pyStrip_idem (s : Str) : pyStrip (pyStrip s) = pyStrip s := by
  apply pyStrip_of_clean
  · intro c t h; exact pyStrip_head_false s c t h
  · intro c h; exact pyStrip_getLast_false s c h

/-! ## The split/join round trip (claim C8) -/

/-- Splitting a string that contains no `"\n\n"` boundary returns it whole. -/
theorem pySplitNN_no_boundary :
    ∀ p : Str, containsNN p = false → pySplitNN p = [p]
  | [], _ => rfl
  | [_], _ => rfl
  | c1 :: c2 :: rest, h => by
    have hparts : ¬(c1 = '\n' ∧ c2 = '\n') ∧ containsNN (c2 :: rest) = false := by
      simpa [containsNN, Decidable.not_and_iff_or_not] using h
    rw [pySplitNN, if_neg hparts.1, pySplitNN_no_boundary (c2 :: rest) hparts.2]

/-- Splitting `p ++ "\n\n" ++ rest` consumes the explicit boundary first when
`p` has no internal boundary and does not end in a newline. -/
theorem pySplitNN_append :
    ∀ p rest : Str, containsNN p = false → p.getLast? ≠ some '\n' →
      pySplitNN (p ++ nl2 ++ rest) = p :: pySplitNN rest
  | [], rest, _, _ => by simp [nl2, pySplitNN]
  | [c], rest, _, hlast => by
    have hc : ¬(c = '\n' ∧ '\n' = '\n') := by
      simp only [List.getLast?_singleton, ne_eq, Option.some.injEq] at hlast
      simp [hlast]
    show pySplitNN (c :: '\n' :: '\n' :: rest) = [c] :: pySplitNN rest
    rw [pySplitNN, if_neg hc]
    have hinner : pySplitNN ('\n' :: '\n' :: rest) = [] :: pySplitNN rest := by
      rw [pySplitNN, if_pos ⟨rfl, rfl⟩]
    rw [hinner]
  | c1 :: c2 :: p', rest, hno, hlast => by
    have hparts : ¬(c1 = '\n' ∧ c2 = '\n') ∧ containsNN (c2 :: p') = false := by
      simpa [containsNN, Decidable.not_and_iff_or_not] using hno
    have hlast' : (c2 :: p').getLast? ≠ some '\n' := by
      rwa [List.getLast?_cons_cons] at hlast
    have ih := pySplitNN_append (c2 :: p') rest hparts.2 hlast'
    show pySplitNN (c1 :: c2 :: (p' ++ nl2 ++ rest)) = (c1 :: c2 :: p') :: pySplitNN rest
    rw [pySplitNN, if_neg hparts.1]
    have : (c2 :: p') ++ nl2 ++ rest = c2 :: (p' ++ nl2 ++ rest) := by simp
    rw [this] at ih
    rw [ih]

/-- Joining non-empty boundary-free paragraphs with `"\n\n"` and re-splitting
recovers them. -/
theorem pySplitNN_joinSep :
    ∀ ps : List Str, ps ≠ [] →
      (∀ p ∈ ps, containsNN p = false ∧ p.getLast? ≠ some '\n') →
      pySplitNN (joinSep nl2 ps) = ps
  | [], hne, _ => absurd rfl hne
  | [p], _, h => by
    show pySplitNN p = [p]
    exact pySplitNN_no_boundary p (h p (by simp)).1
  | p :: q :: ps', _, h => by
    show pySplitNN (p ++ nl2 ++ joinSep nl2 (q :: ps')) = p :: q :: ps'
    rw [pySplitNN_append p _ (h p (by simp)).1 (h p (by simp)).2,
      pySplitNN_joinSep (q :: ps') (by simp)
        (fun r hr => h r (List.mem_cons_of_mem p hr))]

/-- C8: the segmentation in `create_json_entry` never returns an empty-string
element, and joining non-empty trimmed boundary-free paragraphs with `"\n\n"`
(as the scrapers do) and segmenting again returns exactly the original
sequence. -/
theorem C8_segment_join_roundtrip :
    (∀ raw_text : Str, [] ∉ segmentText raw_text)
    ∧ (∀ ps : List Str,
        (∀ p ∈ ps, p ≠ [] ∧ pyStrip p = p ∧ containsNN p = false) →
        segmentText (joinSep nl2 ps) = ps) := by
  constructor
  · intro raw_text h
    simp [segmentText, List.mem_filter] at h
  · intro ps h
    cases ps with
    | nil => decide
    | cons p ps' =>
      have hsplit : pySplitNN (joinSep nl2 (p :: ps')) = p :: ps' := by
        apply pySplitNN_joinSep _ (by simp)
        intro r hr
        obtain ⟨hne, hstrip, hnn⟩ := h r hr
        refine ⟨hnn, fun hcontra => ?_⟩
        have hsp := pyStrip_getLast_false r '\n' (by rw [hstrip]; exact hcontra)
        exact absurd hsp (by decide)
      unfold segmentText
      rw [hsplit]
      have hmap : (p :: ps').map pyStrip = p :: ps' := by
        conv_rhs => rw [← List.map_id (p :: ps')]
        exact List.map_congr_left (fun a ha => (h a ha).2.1)
      rw [hmap, List.filter_eq_self.mpr (fun a ha => by simp [(h a ha).1])]

/-- Witness for C8 at a concrete paragraph sequence. -/
theorem C8_segment_join_roundtrip_witness :
    segmentText (joinSep nl2 [str "A", str "B", str "C"])
      = [str "A", str "B", str "C"] :=
  C8_segment_join_roundtrip.2 [str "A", str "B", str "C"] (by decide)

/-- C1: the paragraph segmentation inside `create_json_entry` is exactly:
split on the two-character blank-line boundary, trim each segment, discard
the ones empty after trimming, preserve relative order; and the two concrete
examples from the spec hold. -/
theorem C1_segmentation :
    (∀ (document_name document_type document_link issuer resource_name : String)
        (raw_text : Str),
      (create_json_entry document_name document_type document_link issuer
          resource_name raw_text).content.map Prod.snd
        = ((pySplitNN raw_text).map pyStrip).filter (fun p => p ≠ []))
    ∧ segmentText (str "A\n\nB\n\nC") = [str "A", str "B", str "C"]
    ∧ segmentText (str "  \n\n  ") = [] := by
  refine ⟨?_, by decide, by decide⟩
  intro n t l i r raw_text
  show ((segmentText raw_text).enum.map
      (fun ip => ("Paragraph_" ++ Nat.repr (ip.1 + 1), ip.2))).map Prod.snd
    = ((pySplitNN raw_text).map pyStrip).filter (fun p => p ≠ [])
  rw [List.map_map]
  have hcomp : (Prod.snd ∘ fun ip : Nat × Str =>
      ("Paragraph_" ++ Nat.repr (ip.1 + 1), ip.2)) = Prod.snd := rfl
  rw [hcomp, List.enum_map_snd]
  rfl

/-- C2: `create_json_entry` stores `raw_text` verbatim in `section_content`,
and `content` is the 1-based `"Paragraph_{i}"`-keyed mapping over the
non-empty trimmed blank-line segments of `raw_text`, in document order; plus
the spec's concrete example. -/
theorem C2_record_invariant :
    (∀ (document_name document_type document_link issuer resource_name : String)
        (raw_text : Str) (k : Nat) (para : Str),
      (create_json_entry document_name document_type document_link issuer
          resource_name raw_text).section_content = raw_text
      ∧ (create_json_entry document_name document_type document_link issuer
          resource_name raw_text).content.length = (segmentText raw_text).length
      ∧ ((segmentText raw_text)[k]? = some para →
          (create_json_entry document_name document_type document_link issuer
            resource_name raw_text).content[k]?
            = some ("Paragraph_" ++ Nat.repr (k + 1), para)))
    ∧ (create_json_entry "n" "t" "l" "i" "r" (str "Para one.\n\nPara two.")).content
        = [("Paragraph_1", str "Para one."), ("Paragraph_2", str "Para two.")] := by
  refine ⟨?_, by decide⟩
  intro n t l i r raw_text k para
  refine ⟨rfl, ?_, ?_⟩
  · show ((segmentText raw_text).enum.map _).length = _
    rw [List.length_map, List.enum_length]
  · intro hk
    show ((segmentText raw_text).enum.map
        (fun ip => ("Paragraph_" ++ Nat.repr (ip.1 + 1), ip.2)))[k]? = _
    rw [List.getElem?_map, List.getElem?_enum, hk]
    rfl

/-- Witness for C2 at a concrete record and index. -/
theorem C2_record_invariant_witness :
    (create_json_entry "n" "t" "l" "i" "r" (str "Para one.\n\nPara two.")).content[1]?
      = some ("Paragraph_2", str "Para two.") :=
  (C2_record_invariant.1 "n" "t" "l" "i" "r" (str "Para one.\n\nPara two.")
    1 (str "Para two.")).2.2 (by decide)

/-- C3 counterexample: on a two-page PDF yielding `"Page1 text"` and
`"Page2 text"`, `extract_text_from_pdf` does not return
`"Page1 text\n\nPage2 text"` — the pages are joined by a single newline, not
by a blank-line boundary. -/
theorem C3_counterexample :
    extract_text_from_pdf (some [str "Page1 text", str "Page2 text"])
      ≠ some (str "Page1 text\n\nPage2 text") := by decide

/-- C3 (amended): the pages are joined by a single `"\n"`, giving
`"Page1 text\nPage2 text"`, and every successful extraction result carries no
leading or trailing whitespace. -/
theorem C3_page_join :
    (extract_text_from_pdf (some [str "Page1 text", str "Page2 text"])
      = some (str "Page1 text\nPage2 text"))
    ∧ (∀ (pdf : Option (List Str)) (res : Str),
        extract_text_from_pdf pdf = some res → pyStrip res = res) := by
  refine ⟨by decide, ?_⟩
  intro pdf res h
  cases pdf with
  | none => exact absurd h (by simp [extract_text_from_pdf])
  | some pages =>
    simp only [extract_text_from_pdf, Option.some.injEq] at h
    rw [← h, pyStrip_idem]

/-- Witness for C3's amended theorem at a concrete PDF. -/
theorem C3_page_join_witness :
    pyStrip (str "Page1 text\nPage2 text") = str "Page1 text\nPage2 text" :=
  C3_page_join.2 (some [str "Page1 text", str "Page2 text"])
    (str "Page1 text\nPage2 text") (by decide)

/-- C5: on all three HTML source paths, a fetch/read error is caught inside
the scraper and surfaced as the human-readable string `"Error: <message>"`
returned in place of the document content; the functions are total and return
a plain string, never a structured error. -/
theorem C5_error_strings (e : Str) :
    scrape_sec_document (.error e) = str "Error: " ++ e
    ∧ scrape_local_html (.error e) = str "Error: " ++ e
    ∧ scrape_website_text (.error e) = str "Error: " ++ e :=
  ⟨rfl, rfl, rfl⟩

/-! ## Claim C6: what the HTML paragraph extraction actually does -/

/-- The claim's reading of a tag's text: every maximal whitespace run becomes
a single space, then the result is trimmed. -/
def collapseRuns : Str → Str
  | [] => []
  | [c] => [if pyIsSpace c then ' ' else c]
  | c1 :: c2 :: rest =>
    if pyIsSpace c1 && pyIsSpace c2 then collapseRuns (c2 :: rest)
    else (if pyIsSpace c1 then ' ' else c1) :: collapseRuns (c2 :: rest)

/-- The claim's per-tag text: the tag's text content with intra-tag whitespace
collapsed to single spaces and trimmed. -/
def claimTagText (n : Node) : Str :=
  pyStrip (collapseRuns (nodeStrings n).flatten)

/-- A document with a single `<p>` whose text holds two adjacent spaces. -/
def c6Doc : NodeList := nlist [.elem "p" [] (nlist [.text (str "a  b")])]

/-- If the first joined piece is non-empty, the join is non-empty. -/
theorem joinSep_cons_ne_nil (sep x : Str) (xs : List Str) (hx : x ≠ []) :
    joinSep sep (x :: xs) ≠ [] := by
  cases xs with
  | nil => exact hx
  | cons q qs =>
    show x ++ sep ++ joinSep sep (q :: qs) ≠ []
    simp [hx]

/-- The test `p.get_text(strip=True)` is empty exactly when every text segment below
`p` strips to empty. -/
theorem bsGetText_nil_iff (p : Node) :
    bsGetText [] p = [] ↔ ∀ s ∈ nodeStrings p, pyStrip s = [] := by
  constructor
  · intro h s hs
    by_contra hne
    cases hf : ((nodeStrings p).map pyStrip).filter (fun t => t ≠ []) with
    | nil =>
      have := List.filter_eq_nil_iff.mp hf (pyStrip s)
        (List.mem_map_of_mem pyStrip hs)
      simp [hne] at this
    | cons x xs =>
      have hx : x ≠ [] := by
        have hmem : x ∈ ((nodeStrings p).map pyStrip).filter (fun t => t ≠ []) := by
          rw [hf]; exact List.mem_cons_self x xs
        simpa using List.of_mem_filter hmem
      have : bsGetText [] p ≠ [] := by
        unfold bsGetText
        rw [hf]
        exact joinSep_cons_ne_nil [] x xs hx
      exact this h
  · intro h
    unfold bsGetText
    have : ((nodeStrings p).map pyStrip).filter (fun t => t ≠ []) = [] := by
      rw [List.filter_eq_nil_iff]
      intro a ha
      rcases List.mem_map.mp ha with ⟨s, hs, rfl⟩
      simpa using h s hs
    rw [this]
    rfl

/-- The code's visibility test agrees with "some text segment strips to
non-empty", pointwise. -/
theorem visible_test_eq (p : Node) :
    (decide (bsGetText [] p ≠ []))
      = (nodeStrings p).any (fun s => pyStrip s ≠ []) := by
  rw [Bool.eq_iff_iff]
  simp only [decide_eq_true_eq, List.any_eq_true, decide_eq_true_eq]
  constructor
  · intro h
    by_contra hno
    push_neg at hno
    exact h ((bsGetText_nil_iff p).mpr (fun s hs => by
      have := hno s hs
      simpa using this))
  · rintro ⟨s, hs, hsne⟩ hzero
    exact hsne ((bsGetText_nil_iff p).mp hzero s hs)

/-- C6 counterexample: on a `<p>` containing the text `"a  b"` (two spaces),
the scraped output keeps both spaces, so it differs from the claim's
"intra-tag whitespace collapsed to single spaces" description. -/
theorem C6_counterexample :
    ¬ (scrape_sec_document (.ok c6Doc)
        = joinSep nl2 (((findPL c6Doc).filter
            (fun p => claimTagText p ≠ [])).map claimTagText)) := by decide

/-- C6 (amended): for every fetched document, `scrape_sec_document` and
`scrape_website_text` return the same text: the `"\n\n"`-join, in document
order, of the texts of the `<p>` tags having some text segment that strips to
non-empty, where a tag's text strips each of its text segments, drops the
empty ones and joins the rest with single spaces (whitespace inside a single
text segment is preserved). -/
theorem C6_paragraph_extraction (doc : NodeList) :
    scrape_sec_document (.ok doc) = scrape_website_text (.ok doc)
    ∧ scrape_sec_document (.ok doc)
        = joinSep nl2 (((findPL doc).filter
            (fun p => (nodeStrings p).any (fun s => pyStrip s ≠ []))).map
          (bsGetText [' '])) := by
  refine ⟨rfl, ?_⟩
  show extractParagraphs doc = _
  unfold extractParagraphs
  congr 2
  exact List.filter_congr (fun a _ => visible_test_eq a)

/-! ## Claim C7: script/style removal and table-attribute stripping -/

mutual
/-- Replace the contents of every script/style element by nothing, leaving
everything else untouched.  Two documents that agree up to script/style
contents have the same image under this map. -/
def eraseScriptContentN : Node → Node
  | .text s => .text s
  | .elem t a cs =>
    if isScriptOrStyle t then .elem t a .nil
    else .elem t a (eraseScriptContentL cs)
/-- Erase script/style contents over a node list. -/
def eraseScriptContentL : NodeList → NodeList
  | .nil => .nil
  | .cons n ns => .cons (eraseScriptContentN n) (eraseScriptContentL ns)
end

mutual
/-- No table element of the subtree carries any of the four popped
presentation attributes. -/
def noPoppedTableAttrsN : Node → Bool
  | .text _ => true
  | .elem t a cs =>
    (if t = "table" then a.all (fun kv => !(tableAttrsPopped.contains kv.1))
      else true)
      && noPoppedTableAttrsL cs
/-- Predicate `noPoppedTableAttrsN` over a node list. -/
def noPoppedTableAttrsL : NodeList → Bool
  | .nil => true
  | .cons n ns => noPoppedTableAttrsN n && noPoppedTableAttrsL ns
end

/-- Script/style removal only ever looks at script/style contents to discard
them: erasing those contents first changes nothing. -/
theorem removeScriptStyleL_erase :
    ∀ l : NodeList,
      removeScriptStyleL (eraseScriptContentL l) = removeScriptStyleL l
  | .nil => rfl
  | .cons (.text s) ns => by
    simp [eraseScriptContentL, eraseScriptContentN, removeScriptStyleL,
      removeScriptStyleL_erase ns]
  | .cons (.elem t a cs) ns => by
    by_cases h : isScriptOrStyle t
    · simp [eraseScriptContentL, eraseScriptContentN, removeScriptStyleL, h,
        removeScriptStyleL_erase ns]
    · simp [eraseScriptContentL, eraseScriptContentN, removeScriptStyleL, h,
        removeScriptStyleL_erase ns, removeScriptStyleL_erase cs]

mutual
/-- Table-attribute stripping does not touch text content (node form). -/
theorem nodeStrings_stripTableAttrs (n : Node) :
    nodeStrings (stripTableAttrsN n) = nodeStrings n := by
  cases n with
  | text s => rfl
  | elem t a cs =>
    simpa [stripTableAttrsN, nodeStrings] using listStrings_stripTableAttrs cs
/-- Table-attribute stripping does not touch text content (list form). -/
theorem listStrings_stripTableAttrs (l : NodeList) :
    listStrings (stripTableAttrsL l) = listStrings l := by
  cases l with
  | nil => rfl
  | cons n ns =>
    simp [stripTableAttrsL, listStrings, nodeStrings_stripTableAttrs n,
      listStrings_stripTableAttrs ns]
end

mutual
/-- After stripping, no table carries a popped attribute (node form). -/
theorem noPopped_stripTableAttrsN (n : Node) :
    noPoppedTableAttrsN (stripTableAttrsN n) = true := by
  cases n with
  | text s => rfl
  | elem t a cs =>
    simp only [stripTableAttrsN, noPoppedTableAttrsN, Bool.and_eq_true]
    refine ⟨?_, noPopped_stripTableAttrsL cs⟩
    by_cases ht : t = "table"
    · simp only [ht, if_true, List.all_eq_true, reduceIte]
      intro kv hkv
      have hmem := List.of_mem_filter hkv
      simpa using hmem
    · simp [ht]
/-- After stripping, no table carries a popped attribute (list form). -/
theorem noPopped_stripTableAttrsL (l : NodeList) :
    noPoppedTableAttrsL (stripTableAttrsL l) = true := by
  cases l with
  | nil => rfl
  | cons n ns =>
    simp [stripTableAttrsL, noPoppedTableAttrsL, noPopped_stripTableAttrsN n,
      noPopped_stripTableAttrsL ns]
end

/-- The spec's local-HTML example document,
`<p>Hello</p><script>evil()</script><p>World</p>`. -/
def c7Doc : NodeList := nlist
  [ .elem "p" [] (nlist [.text (str "Hello")]),
    .elem "script" [] (nlist [.text (str "evil()")]),
    .elem "p" [] (nlist [.text (str "World")])]

/-- C7: `scrape_local_html` removes script/style elements before extraction
(so script content never reaches the output, for any input), strips the four
presentation attributes from every table while keeping all text content in
the tree, and on the spec's example yields exactly the paragraphs `"Hello"`
and `"World"`. -/
theorem C7_local_html_sanitization :
    scrape_local_html (.ok c7Doc) = str "Hello\n\nWorld"
    ∧ (∀ doc : NodeList,
        scrape_local_html (.ok doc)
          = scrape_local_html (.ok (eraseScriptContentL doc)))
    ∧ (∀ doc : NodeList, noPoppedTableAttrsL (stripTableAttrsL doc) = true)
    ∧ (∀ doc : NodeList,
        listStrings (stripTableAttrsL doc) = listStrings doc) := by
  refine ⟨by decide, ?_, noPopped_stripTableAttrsL, listStrings_stripTableAttrs⟩
  intro doc
  show extractParagraphs (stripTableAttrsL (removeScriptStyleL doc)) = _
  rw [← removeScriptStyleL_erase doc]
  rfl

/-! ## Claims C4, C9, C10: the driver's abort and write behaviour -/

/-- A world whose PDF open raises and whose fetches fail. -/
def wFail : World :=
  ⟨.error (str "boom"), .error (str "boom"), none, .error (str "boom"),
    "http://x", "dir/f.html", "docs/My Report.pdf", "My Doc", "Iss", "T", "R"⟩

/-- A world whose PDF yields two pages of known text. -/
def wPdf : World :=
  ⟨.error [], .error [], some [str "Page1 text", str "Page2 text"], .error [],
    "http://x", "dir/f.html", "docs/My Report.pdf", "My Doc", "Iss", "T", "R"⟩

/-- A world whose PDF opens fine but yields only whitespace text. -/
def wPdfBlank : World :=
  ⟨.error [], .error [], some [str "  "], .error [],
    "http://x", "dir/f.html", "docs/My Report.pdf", "My Doc", "Iss", "T", "R"⟩

/-- C4: when PDF extraction raises, `extract_text_from_pdf` returns the
`None` sentinel instead of propagating, and `main` in PDF mode prints the
failure message and returns without writing a file; an invalid mode selection
likewise prints a message and writes nothing. -/
theorem C4_fatal_errors :
    (∀ w : World, w.pdf = none →
      extract_text_from_pdf w.pdf = none
      ∧ (mainRun "3" w).written = none
      ∧ pdfFailMsg ∈ (mainRun "3" w).printed)
    ∧ (∀ (choice : String) (w : World),
        choice ≠ "1" → choice ≠ "2" → choice ≠ "3" → choice ≠ "4" →
        (mainRun choice w).written = none
        ∧ invalidChoiceMsg ∈ (mainRun choice w).printed) := by
  constructor
  · intro w hw
    refine ⟨by rw [hw]; rfl, ?_, ?_⟩ <;>
      simp [mainRun, hw, extract_text_from_pdf]
  · intro choice w h1 h2 h3 h4
    constructor <;> simp [mainRun, h1, h2, h3, h4]

/-- Witness for C4 at a concrete world and mode. -/
theorem C4_fatal_errors_witness :
    (mainRun "3" wFail).written = none ∧ (mainRun "7" wFail).written = none :=
  ⟨(C4_fatal_errors.1 wFail rfl).2.1,
    (C4_fatal_errors.2 "7" wFail (by decide) (by decide) (by decide)
      (by decide)).1⟩

/-- C9: every branch that reaches the write step writes exactly one file,
named from the document name with spaces replaced by underscores plus
`".json"`, opened in overwrite mode `"w"` with `encoding="utf-8"` and dumped
with `indent=4`; the payload is `{"company": issuer, "documents": [record]}`
and the documents sequence always has length exactly 1. -/
theorem C9_single_file_written :
    (∀ w : World,
      (mainRun "1" w).written
        = some ⟨pyReplaceSpaceUnderscore w.inName ++ ".json", "w", "utf-8", 4,
            ⟨w.inIssuer, [create_json_entry w.inName "Raw Financials" w.inUrl
              w.inIssuer "SEC" (scrape_sec_document w.secFetch)]⟩⟩
      ∧ (mainRun "2" w).written
        = some ⟨pyReplaceSpaceUnderscore (docNameOfPath w.inPath) ++ ".json",
            "w", "utf-8", 4,
            ⟨w.inIssuer, [create_json_entry (docNameOfPath w.inPath)
              "Raw Financials" "N/A" w.inIssuer "SEC"
              (scrape_local_html w.localRead)]⟩⟩
      ∧ (∀ raw_text : Str,
          extract_text_from_pdf w.pdf = some raw_text → raw_text ≠ [] →
          (mainRun "3" w).written
            = some ⟨pyReplaceSpaceUnderscore (docNameOfPath w.inPdfPath)
                ++ ".json", "w", "utf-8", 4,
                ⟨w.inIssuer, [create_json_entry (docNameOfPath w.inPdfPath)
                  w.inType "N/A" w.inIssuer w.inResource raw_text]⟩⟩)
      ∧ (mainRun "4" w).written
        = some ⟨pyReplaceSpaceUnderscore w.inName ++ ".json", "w", "utf-8", 4,
            ⟨w.inIssuer, [create_json_entry w.inName "Market" w.inUrl
              w.inIssuer w.inResource (scrape_website_text w.webFetch)]⟩⟩)
    ∧ (∀ (choice : String) (w : World) (fw : FileWrite),
        (mainRun choice w).written = some fw →
        fw.mode = "w" ∧ fw.encoding = "utf-8" ∧ fw.indent = 4
          ∧ fw.payload.documents.length = 1) := by
  constructor
  · intro w
    refine ⟨rfl, rfl, ?_, rfl⟩
    intro raw_text hx hne
    simp [mainRun, hx, hne, finishRun]
  · intro choice w fw h
    by_cases h1 : choice = "1"
    · simp [mainRun, h1, finishRun] at h
      rw [← h]
      exact ⟨rfl, rfl, rfl, rfl⟩
    by_cases h2 : choice = "2"
    · simp [mainRun, h1, h2, finishRun] at h
      rw [← h]
      exact ⟨rfl, rfl, rfl, rfl⟩
    by_cases h3 : choice = "3"
    · simp only [mainRun] at h
      rw [if_neg h1, if_neg h2, if_pos h3] at h
      cases hx : extract_text_from_pdf w.pdf with
      | none => rw [hx] at h; simp at h
      | some raw_text =>
        rw [hx] at h
        dsimp only at h
        by_cases hz : raw_text = []
        · rw [if_pos hz] at h; simp at h
        · rw [if_neg hz] at h
          simp only [finishRun, Option.some.injEq] at h
          rw [← h]
          exact ⟨rfl, rfl, rfl, rfl⟩
    by_cases h4 : choice = "4"
    · simp [mainRun, h1, h2, h3, h4, finishRun] at h
      rw [← h]
      exact ⟨rfl, rfl, rfl, rfl⟩
    · simp [mainRun, h1, h2, h3, h4] at h

/-- Witness for C9 on the PDF branch at a concrete world. -/
theorem C9_single_file_written_witness :
    (mainRun "3" wPdf).written
      = some ⟨pyReplaceSpaceUnderscore (docNameOfPath wPdf.inPdfPath)
          ++ ".json", "w", "utf-8", 4,
          ⟨wPdf.inIssuer, [create_json_entry (docNameOfPath wPdf.inPdfPath)
            wPdf.inType "N/A" wPdf.inIssuer wPdf.inResource
            (str "Page1 text\nPage2 text")]⟩⟩ :=
  (C9_single_file_written.1 wPdf).2.2.1 (str "Page1 text\nPage2 text")
    (by decide) (by decide)

/-- C10: a readable PDF whose extracted text is empty takes the same abort
path as a failed extraction: `main` prints the same messages and writes no
file, so "successful but empty" is not distinguished from the error
sentinel. -/
theorem C10_empty_pdf_aborts :
    ∀ w wNone : World, wNone.pdf = none →
      extract_text_from_pdf w.pdf = some [] →
      (mainRun "3" w).written = none
      ∧ (mainRun "3" w).printed = (mainRun "3" wNone).printed
      ∧ pdfFailMsg ∈ (mainRun "3" w).printed := by
  intro w wNone hnone hempty
  have hxn : extract_text_from_pdf wNone.pdf = none := by rw [hnone]; rfl
  refine ⟨?_, ?_, ?_⟩ <;> simp [mainRun, hxn, hempty]

/-- Witness for C10: an all-whitespace one-page PDF aborts like a failing
one. -/
theorem C10_empty_pdf_aborts_witness :
    (mainRun "3" wPdfBlank).written = none
    ∧ (mainRun "3" wPdfBlank).printed = (mainRun "3" wFail).printed :=
  ⟨(C10_empty_pdf_aborts wPdfBlank wFail rfl (by decide)).1,
    (C10_empty_pdf_aborts wPdfBlank wFail rfl (by decide)).2.1⟩
